import Mathlib

/-!
A verification development for the `real-estate-deal-analyser` repository.

The TypeScript class `RealEstateDealAnalyser` (src/realEstateDealAnalyser.ts)
is embedded shallowly: money and rates become `ℚ`, the amortization length in
years becomes `ℕ` (the code only ever uses it as `mortgageAmortization * 12`,
an exponent), and the stateful `adjustToNeededPurchasePrice` while-loop
becomes a fuel-indexed recursion whose top-level fuel is provably sufficient.
JavaScript division by zero (which yields `NaN`/`Infinity` there) is tracked
by naming the payment denominator explicitly; `ℚ`'s `x / 0 = 0` convention is
never silently relied on in a theorem that speaks about a run with a zero
denominator.
-/

/-- The constructor argument record `RealestateAnalysisInput` of the source. -/
structure RealestateAnalysisInput where
  salePrice : ℚ
  downpaymentPercentage : ℚ
  annualMortgageInterestRate : ℚ
  mortgageAmortization : ℕ
  monthlyHoaDues : ℚ
  expectedVacancyWeeks : ℚ
  monthlyRent : ℚ
deriving DecidableEq

/-- The state of a `RealEstateDealAnalyser` object: the seven input fields
(with `annualMortgageInterestRate` already divided by 100, as the constructor
does) plus the mutable `purchasePrice`. -/
structure RealEstateDealAnalyser where
  salePrice : ℚ
  downpaymentPercentage : ℚ
  annualMortgageInterestRate : ℚ
  mortgageAmortization : ℕ
  monthlyHoaDues : ℚ
  expectedVacancyWeeks : ℚ
  monthlyRent : ℚ
  purchasePrice : ℚ
deriving DecidableEq

/-- The constructor: copies the input, divides `annualMortgageInterestRate`
by 100, and sets `purchasePrice := salePrice`.  The source constructor
performs no validation and cannot throw. -/
def mkAnalyser (i : RealestateAnalysisInput) : RealEstateDealAnalyser where
  salePrice := i.salePrice
  downpaymentPercentage := i.downpaymentPercentage
  annualMortgageInterestRate := i.annualMortgageInterestRate / 100
  mortgageAmortization := i.mortgageAmortization
  monthlyHoaDues := i.monthlyHoaDues
  expectedVacancyWeeks := i.expectedVacancyWeeks
  monthlyRent := i.monthlyRent
  purchasePrice := i.salePrice

namespace RealEstateDealAnalyser

/-- `getLoanAmount`. -/
def getLoanAmount (a : RealEstateDealAnalyser) : ℚ :=
  a.purchasePrice * (1 - a.downpaymentPercentage / 100)

/-- The local `n` of `getMonthlyMortgagePayment`: number of monthly periods. -/
def nPeriods (a : RealEstateDealAnalyser) : ℕ :=
  a.mortgageAmortization * 12

/-- The local `monthlyMortgageInterestRate` of `getMonthlyMortgagePayment`. -/
def monthlyMortgageInterestRate (a : RealEstateDealAnalyser) : ℚ :=
  a.annualMortgageInterestRate / 12

/-- The denominator `1 - (1 + monthlyMortgageInterestRate) ** -n` of the
amortization formula.  In JavaScript, a zero value here poisons the payment
with `NaN`/`Infinity`; in `ℚ` the division then returns 0 instead, so
theorems about degenerate runs refer to this value explicitly. -/
def paymentDenominator (a : RealEstateDealAnalyser) : ℚ :=
  1 - (1 + a.monthlyMortgageInterestRate) ^ (-(a.nPeriods : ℤ))

/-- `getMonthlyMortgagePayment`: the fixed-rate amortization formula. -/
def getMonthlyMortgagePayment (a : RealEstateDealAnalyser) : ℚ :=
  a.getLoanAmount * a.monthlyMortgageInterestRate / a.paymentDenominator

/-- `getDownPayment`. -/
def getDownPayment (a : RealEstateDealAnalyser) : ℚ :=
  a.purchasePrice * (a.downpaymentPercentage / 100)

/-- Component `annualMortgagePayment` of the `annualExpenses` object. -/
def annualMortgagePayment (a : RealEstateDealAnalyser) : ℚ :=
  a.getMonthlyMortgagePayment * 12

/-- Component `annualHoaDues` of the `annualExpenses` object. -/
def annualHoaDues (a : RealEstateDealAnalyser) : ℚ :=
  a.monthlyHoaDues * 12

/-- Component `annualCapEx` of the `annualExpenses` object (1% of purchase price). -/
def annualCapEx (a : RealEstateDealAnalyser) : ℚ :=
  a.purchasePrice * 0.01

/-- Component `annualPropertyTax` of the `annualExpenses` object (1.5%). -/
def annualPropertyTax (a : RealEstateDealAnalyser) : ℚ :=
  a.purchasePrice * 0.015

/-- Component `annualPropertyInsurance` of the `annualExpenses` object. -/
def annualPropertyInsurance : ℚ := 1750

/-- Component `annualVacancyCosts` of the `annualExpenses` object. -/
def annualVacancyCosts (a : RealEstateDealAnalyser) : ℚ :=
  a.monthlyRent / 4 * a.expectedVacancyWeeks

/-- `getAnnualExpenses().value`: `Object.values(annualExpenses)` reduced with
`(acc, v) => acc + v` from 0, in the object's field order. -/
def getAnnualExpenses (a : RealEstateDealAnalyser) : ℚ :=
  [a.annualMortgagePayment, a.annualHoaDues, a.annualCapEx,
    a.annualPropertyTax, annualPropertyInsurance, a.annualVacancyCosts].foldl (· + ·) 0

/-- `getAnnualCashflow().value`. -/
def getAnnualCashflow (a : RealEstateDealAnalyser) : ℚ :=
  a.monthlyRent * 12 - a.getAnnualExpenses

/-- The `for` loop of `getAnnualReturn`, counting the remaining iterations:
each step recomputes `getMonthlyMortgagePayment()` (as the source does),
takes `interestPayment = remainingLoanBalance * monthlyMortgageInterestRate`,
`principalPayment = payment - interestPayment`, adds it to the accumulator
and subtracts it from the balance. -/
def amortLoop (a : RealEstateDealAnalyser) (balance acc : ℚ) : ℕ → ℚ
  | 0 => acc
  | k + 1 =>
    amortLoop a
      (balance - (a.getMonthlyMortgagePayment - balance * a.monthlyMortgageInterestRate))
      (acc + (a.getMonthlyMortgagePayment - balance * a.monthlyMortgageInterestRate))
      k

/-- The `annualPrincipalReduction` accumulated by `getAnnualReturn`'s loop:
12 iterations starting from `getLoanAmount()` with accumulator 0. -/
def getAnnualPrincipalReduction (a : RealEstateDealAnalyser) : ℚ :=
  a.amortLoop a.getLoanAmount 0 12

/-- `getAnnualReturn().value`. -/
def getAnnualReturn (a : RealEstateDealAnalyser) : ℚ :=
  a.getAnnualCashflow + a.getAnnualPrincipalReduction + a.purchasePrice * 0.048

/-- `getAnnualROI().value`. -/
def getAnnualROI (a : RealEstateDealAnalyser) : ℚ :=
  a.getAnnualReturn / (a.getDownPayment + a.purchasePrice * 0.02) * 100

/-- The mutation `this.purchasePrice := p`, all other fields untouched. -/
def setPrice (a : RealEstateDealAnalyser) (p : ℚ) : RealEstateDealAnalyser :=
  { a with purchasePrice := p }

/-- The guard of the `adjustToNeededPurchasePrice` while-loop, negated: the
loop exits (and the method returns `this`) exactly when both criteria hold. -/
def meetsCriteria (minimumROI minimumCashflow : ℚ) (a : RealEstateDealAnalyser) : Prop :=
  minimumROI ≤ a.getAnnualROI ∧ minimumCashflow ≤ a.getAnnualCashflow

instance (minimumROI minimumCashflow : ℚ) (a : RealEstateDealAnalyser) :
    Decidable (meetsCriteria minimumROI minimumCashflow a) := by
  unfold meetsCriteria; infer_instance

end RealEstateDealAnalyser

/-- Outcome of `adjustToNeededPurchasePrice`: `ok` is the normal return of
`this`; `err` is the thrown `Error`, carrying the analyser state left behind
by the mutation (the caller's object keeps the mutated `purchasePrice`). -/
inductive AdjustResult where
  | ok : RealEstateDealAnalyser → AdjustResult
  | err : RealEstateDealAnalyser → AdjustResult
deriving DecidableEq

namespace RealEstateDealAnalyser

/-- The while-loop of `adjustToNeededPurchasePrice`, indexed by fuel.
One unit of fuel is one guard evaluation: if the criteria hold, return `ok`;
otherwise decrement `purchasePrice` by 1000, throw if it dropped to `≤ 0`,
else loop.  The fuel-0 case is unreachable for the sufficient fuel
`adjustToNeededPurchasePrice` supplies (the loop runs at most
`purchasePrice / 1000 + 1` times before throwing). -/
def adjustAux (minimumROI minimumCashflow : ℚ) :
    ℕ → RealEstateDealAnalyser → AdjustResult
  | 0, a => .err a
  | fuel + 1, a =>
    if meetsCriteria minimumROI minimumCashflow a then .ok a
    else if a.purchasePrice - 1000 ≤ 0 then .err (a.setPrice (a.purchasePrice - 1000))
    else adjustAux minimumROI minimumCashflow fuel (a.setPrice (a.purchasePrice - 1000))

/-- `adjustToNeededPurchasePrice(minimumROI = 13, minimumCashflow = 0)`. -/
def adjustToNeededPurchasePrice (minimumROI minimumCashflow : ℚ)
    (a : RealEstateDealAnalyser) : AdjustResult :=
  adjustAux minimumROI minimumCashflow (⌈a.purchasePrice⌉.toNat + 1) a

end RealEstateDealAnalyser

/-- One monthly amortization step as the spec words it: on a state
`(balance, accumulated principal)`, take `interest = balance × r`,
`principal = monthlyPayment − interest`, accumulate the principal and reduce
the balance by it. -/
def specAmortStep (monthlyPayment r : ℚ) (st : ℚ × ℚ) : ℚ × ℚ :=
  (st.1 - (monthlyPayment - st.1 * r), st.2 + (monthlyPayment - st.1 * r))

/-- The spec's annual principal reduction: iterate `specAmortStep` exactly 12
times starting from the loan amount as the remaining balance and 0
accumulated principal, and read off the accumulated principal. -/
def specAnnualPrincipalReduction (loanAmount monthlyPayment r : ℚ) : ℚ :=
  ((specAmortStep monthlyPayment r)^[12] (loanAmount, 0)).2

/-- The worked scenario of the spec (also the example driver of the source):
375000 sale price, 20% down, 5.15% rate, 25 years, no HOA dues, 3 vacancy
weeks, 2950 monthly rent. -/
def inputExample : RealestateAnalysisInput where
  salePrice := 375000
  downpaymentPercentage := 20
  annualMortgageInterestRate := 5.15
  mortgageAmortization := 25
  monthlyHoaDues := 0
  expectedVacancyWeeks := 3
  monthlyRent := 2950

/-- The worked scenario with a 19% downpayment (below the spec's PMI threshold). -/
def inputExample19 : RealestateAnalysisInput :=
  { inputExample with downpaymentPercentage := 19 }

/-- The worked scenario with a zero interest rate. -/
def inputZeroRate : RealestateAnalysisInput :=
  { inputExample with annualMortgageInterestRate := 0 }

/-- An invalid input: negative sale price and rent, downpayment above 100,
negative HOA dues. -/
def inputInvalid : RealestateAnalysisInput where
  salePrice := -100000
  downpaymentPercentage := 120
  annualMortgageInterestRate := 12
  mortgageAmortization := 1
  monthlyHoaDues := -10
  expectedVacancyWeeks := 3
  monthlyRent := -50

/-- A comfortably profitable deal (high rent, one-year amortization): the
criteria hold at the sale price itself and still at one unit above it. -/
def inputGood : RealestateAnalysisInput where
  salePrice := 10000
  downpaymentPercentage := 20
  annualMortgageInterestRate := 12
  mortgageAmortization := 1
  monthlyHoaDues := 0
  expectedVacancyWeeks := 0
  monthlyRent := 2000

/-- A second comfortably profitable deal. -/
def inputGood2 : RealestateAnalysisInput where
  salePrice := 20000
  downpaymentPercentage := 20
  annualMortgageInterestRate := 12
  mortgageAmortization := 1
  monthlyHoaDues := 0
  expectedVacancyWeeks := 0
  monthlyRent := 4000

/-- A hopeless deal: the flat 1750 insurance alone exceeds the annual rent,
so no purchase price on the grid meets the cashflow criterion and the
adjustment loop runs until it throws. -/
def inputBad : RealestateAnalysisInput where
  salePrice := 1500
  downpaymentPercentage := 20
  annualMortgageInterestRate := 12
  mortgageAmortization := 1
  monthlyHoaDues := 0
  expectedVacancyWeeks := 0
  monthlyRent := 100

namespace RealEstateDealAnalyser

@[simp] theorem setPrice_purchasePrice (a : RealEstateDealAnalyser) (p : ℚ) :
    (a.setPrice p).purchasePrice = p := rfl

@[simp] theorem setPrice_salePrice (a : RealEstateDealAnalyser) (p : ℚ) :
    (a.setPrice p).salePrice = a.salePrice := rfl

@[simp] theorem setPrice_downpaymentPercentage (a : RealEstateDealAnalyser) (p : ℚ) :
    (a.setPrice p).downpaymentPercentage = a.downpaymentPercentage := rfl

@[simp] theorem setPrice_annualMortgageInterestRate (a : RealEstateDealAnalyser) (p : ℚ) :
    (a.setPrice p).annualMortgageInterestRate = a.annualMortgageInterestRate := rfl

@[simp] theorem setPrice_mortgageAmortization (a : RealEstateDealAnalyser) (p : ℚ) :
    (a.setPrice p).mortgageAmortization = a.mortgageAmortization := rfl

@[simp] theorem setPrice_monthlyHoaDues (a : RealEstateDealAnalyser) (p : ℚ) :
    (a.setPrice p).monthlyHoaDues = a.monthlyHoaDues := rfl

@[simp] theorem setPrice_expectedVacancyWeeks (a : RealEstateDealAnalyser) (p : ℚ) :
    (a.setPrice p).expectedVacancyWeeks = a.expectedVacancyWeeks := rfl

@[simp] theorem setPrice_monthlyRent (a : RealEstateDealAnalyser) (p : ℚ) :
    (a.setPrice p).monthlyRent = a.monthlyRent := rfl

@[simp] theorem setPrice_setPrice (a : RealEstateDealAnalyser) (p q : ℚ) :
    (a.setPrice p).setPrice q = a.setPrice q := rfl

@[simp] theorem setPrice_self (a : RealEstateDealAnalyser) :
    a.setPrice a.purchasePrice = a := rfl

/-- The payment denominator does not depend on the candidate purchase price. -/
@[simp] theorem paymentDenominator_setPrice (a : RealEstateDealAnalyser) (p : ℚ) :
    (a.setPrice p).paymentDenominator = a.paymentDenominator := rfl

/-- One exit step of the while-loop: if the criteria already hold, the method
returns `this` unchanged. -/
theorem adjustAux_ok_step (m c : ℚ) (fuel : ℕ) (a : RealEstateDealAnalyser)
    (h : meetsCriteria m c a) : adjustAux m c (fuel + 1) a = .ok a := by
  simp [adjustAux, h]

/-- One throwing step: the criteria fail and the decremented price is `≤ 0`. -/
theorem adjustAux_err_step (m c : ℚ) (fuel : ℕ) (a : RealEstateDealAnalyser)
    (hm : ¬ meetsCriteria m c a) (hz : a.purchasePrice - 1000 ≤ 0) :
    adjustAux m c (fuel + 1) a = .err (a.setPrice (a.purchasePrice - 1000)) := by
  simp [adjustAux, hm, hz]

/-- One looping step: the criteria fail and the decremented price stays positive. -/
theorem adjustAux_loop_step (m c : ℚ) (fuel : ℕ) (a : RealEstateDealAnalyser)
    (hm : ¬ meetsCriteria m c a) (hz : ¬ a.purchasePrice - 1000 ≤ 0) :
    adjustAux m c (fuel + 1) a =
      adjustAux m c fuel (a.setPrice (a.purchasePrice - 1000)) := by
  simp [adjustAux, hm, hz]

/-- The fuel supplied by `adjustToNeededPurchasePrice` bounds the price. -/
theorem fuel_sufficient (a : RealEstateDealAnalyser) :
    a.purchasePrice ≤ 1000 * ((⌈a.purchasePrice⌉.toNat + 1 : ℕ) : ℚ) := by
  have h1 : a.purchasePrice ≤ (⌈a.purchasePrice⌉ : ℚ) := Int.le_ceil _
  have h2 : (⌈a.purchasePrice⌉ : ℤ) ≤ (⌈a.purchasePrice⌉.toNat : ℤ) :=
    Int.self_le_toNat _
  have h2q : ((⌈a.purchasePrice⌉ : ℤ) : ℚ) ≤ ((⌈a.purchasePrice⌉.toNat : ℕ) : ℚ) := by
    exact_mod_cast h2
  have h3 : (0 : ℚ) ≤ ((⌈a.purchasePrice⌉.toNat : ℕ) : ℚ) := by positivity
  push_cast
  push_cast at h2q
  linarith

/-- A run that already meets the criteria returns `ok` with the state unchanged. -/
theorem adjust_eq_ok_of_meets (m c : ℚ) (a : RealEstateDealAnalyser)
    (h : meetsCriteria m c a) : adjustToNeededPurchasePrice m c a = .ok a := by
  rw [adjustToNeededPurchasePrice]
  exact adjustAux_ok_step m c _ a h

end RealEstateDealAnalyser

namespace RealEstateDealAnalyser

/-- Price-grid arithmetic: stepping down 1000 once and then `k` more times
lands on the `k+1`-st grid point below the starting price. -/
theorem grid_shift (p : ℚ) (k : ℕ) :
    p - 1000 - 1000 * (k : ℚ) = p - 1000 * ((k + 1 : ℕ) : ℚ) := by
  push_cast
  ring

/-- Any `ok` outcome of the loop is the first point of the descending $1000
grid (anchored at the entry `purchasePrice`, other fields untouched) that
meets the criteria. -/
theorem adjustAux_ok_spec (m c : ℚ) :
    ∀ fuel (a res : RealEstateDealAnalyser),
      adjustAux m c fuel a = .ok res →
      ∃ k : ℕ, res = a.setPrice (a.purchasePrice - 1000 * k) ∧
        meetsCriteria m c res ∧
        ∀ j < k, ¬ meetsCriteria m c (a.setPrice (a.purchasePrice - 1000 * j)) := by
  intro fuel
  induction fuel with
  | zero =>
    intro a res h
    simp [adjustAux] at h
  | succ fuel ih =>
    intro a res h
    rw [adjustAux] at h
    by_cases hm : meetsCriteria m c a
    · rw [if_pos hm] at h
      obtain rfl : a = res := by injection h
      exact ⟨0, by simp, hm, by omega⟩
    · rw [if_neg hm] at h
      by_cases hz : a.purchasePrice - 1000 ≤ 0
      · rw [if_pos hz] at h
        exact absurd h (by simp)
      · rw [if_neg hz] at h
        obtain ⟨k, hres, hmeets, hmin⟩ := ih _ _ h
        refine ⟨k + 1, ?_, hmeets, ?_⟩
        · rw [hres]
          simp only [setPrice_setPrice, setPrice_purchasePrice]
          rw [grid_shift]
        · intro j hj
          match j with
          | 0 => simpa using hm
          | j + 1 =>
            have hjk : j < k := by omega
            have hx := hmin j hjk
            simp only [setPrice_setPrice, setPrice_purchasePrice] at hx
            rwa [grid_shift] at hx

/-- The loop throws exactly when every positive point of the descending $1000
grid (the entry price itself included, if positive) fails the criteria. -/
theorem adjustAux_err_iff (m c : ℚ) :
    ∀ (fuel : ℕ) (a : RealEstateDealAnalyser), 0 < a.purchasePrice →
      a.purchasePrice ≤ 1000 * (fuel : ℚ) →
      ((∃ e, adjustAux m c fuel a = .err e) ↔
        ∀ k : ℕ, 0 < a.purchasePrice - 1000 * k →
          ¬ meetsCriteria m c (a.setPrice (a.purchasePrice - 1000 * k))) := by
  intro fuel
  induction fuel with
  | zero =>
    intro a hpos hb
    simp only [Nat.cast_zero, mul_zero] at hb
    linarith
  | succ fuel ih =>
    intro a hpos hb
    rw [adjustAux]
    by_cases hm : meetsCriteria m c a
    · rw [if_pos hm]
      constructor
      · rintro ⟨e, he⟩
        exact absurd he (by simp)
      · intro hall
        have h0 := hall 0 (by simpa using hpos)
        simp at h0
        exact (h0 hm).elim
    · rw [if_neg hm]
      by_cases hz : a.purchasePrice - 1000 ≤ 0
      · rw [if_pos hz]
        constructor
        · intro _ k hk
          match k with
          | 0 => simpa using hm
          | k + 1 =>
            exfalso
            have hge : (1000 : ℚ) ≤ 1000 * ((k + 1 : ℕ) : ℚ) := by
              push_cast
              nlinarith [Nat.cast_nonneg (α := ℚ) k]
            linarith
        · intro _
          exact ⟨_, rfl⟩
      · rw [if_neg hz]
        have hpos' : 0 < (a.setPrice (a.purchasePrice - 1000)).purchasePrice := by
          simp only [setPrice_purchasePrice]
          linarith
        have hb' : (a.setPrice (a.purchasePrice - 1000)).purchasePrice ≤
            1000 * (fuel : ℚ) := by
          simp only [setPrice_purchasePrice]
          push_cast at hb
          linarith
        rw [ih _ hpos' hb']
        constructor
        · intro hall k hk
          match k with
          | 0 => simpa using hm
          | k + 1 =>
            have hk' : 0 < (a.setPrice (a.purchasePrice - 1000)).purchasePrice -
                1000 * (k : ℚ) := by
              simp only [setPrice_purchasePrice]
              rw [grid_shift]
              exact hk
            have hx := hall k hk'
            simp only [setPrice_setPrice, setPrice_purchasePrice] at hx
            rwa [grid_shift] at hx
        · intro hall k hk
          simp only [setPrice_setPrice, setPrice_purchasePrice]
          rw [grid_shift]
          refine hall (k + 1) ?_
          simp only [setPrice_purchasePrice] at hk
          rw [grid_shift] at hk
          exact hk

/-- When the loop throws, the analyser has already been mutated: the thrown
state is the entry object with its `purchasePrice` driven to `≤ 0`. -/
theorem adjustAux_err_price (m c : ℚ) :
    ∀ (fuel : ℕ) (a : RealEstateDealAnalyser), 0 < a.purchasePrice →
      a.purchasePrice ≤ 1000 * (fuel : ℚ) →
      ∀ e, adjustAux m c fuel a = .err e →
        e.purchasePrice ≤ 0 ∧ e = a.setPrice e.purchasePrice := by
  intro fuel
  induction fuel with
  | zero =>
    intro a hpos hb
    simp only [Nat.cast_zero, mul_zero] at hb
    linarith
  | succ fuel ih =>
    intro a hpos hb e h
    rw [adjustAux] at h
    by_cases hm : meetsCriteria m c a
    · rw [if_pos hm] at h
      exact absurd h (by simp)
    · rw [if_neg hm] at h
      by_cases hz : a.purchasePrice - 1000 ≤ 0
      · rw [if_pos hz] at h
        obtain rfl : a.setPrice (a.purchasePrice - 1000) = e := by injection h
        exact ⟨by simpa using hz, by simp⟩
      · rw [if_neg hz] at h
        have hpos' : 0 < (a.setPrice (a.purchasePrice - 1000)).purchasePrice := by
          simp only [setPrice_purchasePrice]
          linarith
        have hb' : (a.setPrice (a.purchasePrice - 1000)).purchasePrice ≤
            1000 * (fuel : ℚ) := by
          simp only [setPrice_purchasePrice]
          push_cast at hb
          linarith
        obtain ⟨h1, h2⟩ := ih _ hpos' hb' e h
        exact ⟨h1, by rw [h2]; simp⟩

end RealEstateDealAnalyser

namespace RealEstateDealAnalyser

/-- Top-level form of `adjustAux_ok_spec` for `adjustToNeededPurchasePrice`. -/
theorem adjust_ok_spec (m c : ℚ) (a res : RealEstateDealAnalyser)
    (h : adjustToNeededPurchasePrice m c a = .ok res) :
    ∃ k : ℕ, res = a.setPrice (a.purchasePrice - 1000 * k) ∧
      meetsCriteria m c res ∧
      ∀ j < k, ¬ meetsCriteria m c (a.setPrice (a.purchasePrice - 1000 * j)) :=
  adjustAux_ok_spec m c _ a res h

/-- Top-level form of `adjustAux_err_iff`. -/
theorem adjust_err_iff (m c : ℚ) (a : RealEstateDealAnalyser)
    (hpos : 0 < a.purchasePrice) :
    (∃ e, adjustToNeededPurchasePrice m c a = .err e) ↔
      ∀ k : ℕ, 0 < a.purchasePrice - 1000 * k →
        ¬ meetsCriteria m c (a.setPrice (a.purchasePrice - 1000 * k)) :=
  adjustAux_err_iff m c _ a hpos (fuel_sufficient a)

/-- Top-level form of `adjustAux_err_price`. -/
theorem adjust_err_price (m c : ℚ) (a : RealEstateDealAnalyser)
    (hpos : 0 < a.purchasePrice) (e : RealEstateDealAnalyser)
    (h : adjustToNeededPurchasePrice m c a = .err e) :
    e.purchasePrice ≤ 0 ∧ e = a.setPrice e.purchasePrice :=
  adjustAux_err_price m c _ a hpos (fuel_sufficient a) e h

/-- The source's `for` loop agrees, step by step, with iterating the spec's
amortization step and projecting out the accumulated principal. -/
theorem amortLoop_eq_iterate (a : RealEstateDealAnalyser) :
    ∀ (k : ℕ) (balance acc : ℚ),
      a.amortLoop balance acc k =
        ((specAmortStep a.getMonthlyMortgagePayment a.monthlyMortgageInterestRate)^[k]
          (balance, acc)).2 := by
  intro k
  induction k with
  | zero =>
    intro balance acc
    rfl
  | succ k ih =>
    intro balance acc
    rw [amortLoop, ih, Function.iterate_succ_apply]
    rfl

/-- With a positive interest rate and a positive amortization length, the
amortization-formula denominator is strictly positive. -/
theorem paymentDenominator_pos (a : RealEstateDealAnalyser)
    (hr : 0 < a.annualMortgageInterestRate) (hn : a.mortgageAmortization ≠ 0) :
    0 < a.paymentDenominator := by
  have hr' : 0 < a.monthlyMortgageInterestRate := by
    rw [monthlyMortgageInterestRate]
    positivity
  rw [paymentDenominator, zpow_neg, zpow_natCast]
  have hn' : a.nPeriods ≠ 0 := by
    rw [nPeriods]
    omega
  have h1 : 1 < (1 + a.monthlyMortgageInterestRate) ^ a.nPeriods :=
    one_lt_pow₀ (by linarith) hn'
  have h2 : ((1 + a.monthlyMortgageInterestRate) ^ a.nPeriods)⁻¹ < 1 :=
    inv_lt_one_of_one_lt₀ h1
  linarith

/-- Changing only the candidate purchase price changes the annual cashflow by
the opposite of the price change times a fixed per-unit cost (the amortized
payment rate on the financed share plus the 1% CapEx and 1.5% tax rates). -/
theorem getAnnualCashflow_setPrice_diff (a : RealEstateDealAnalyser) (p q : ℚ) :
    getAnnualCashflow (a.setPrice p) - getAnnualCashflow (a.setPrice q) =
      (q - p) * (12 * ((1 - a.downpaymentPercentage / 100) *
        a.monthlyMortgageInterestRate / a.paymentDenominator) + 1 / 40) := by
  simp only [getAnnualCashflow, getAnnualExpenses, List.foldl, annualMortgagePayment,
    getMonthlyMortgagePayment, getLoanAmount, annualHoaDues, annualCapEx,
    annualPropertyTax, annualPropertyInsurance, annualVacancyCosts,
    monthlyMortgageInterestRate, paymentDenominator_setPrice, setPrice_purchasePrice,
    setPrice_monthlyRent, setPrice_downpaymentPercentage,
    setPrice_annualMortgageInterestRate, setPrice_expectedVacancyWeeks,
    setPrice_monthlyHoaDues]
  ring

end RealEstateDealAnalyser

open RealEstateDealAnalyser

/-- C2: for every analyser state, the computed metrics satisfy the record
invariant: total annual expenses are the sum of the six named components,
annual cashflow is annual rent minus total expenses, total annual return is
cashflow plus principal reduction plus appreciation, and annual ROI is the
return over (down payment + closing costs of 2%) times 100, with the down
payment equal to purchasePrice × downpaymentPercentage / 100. -/
theorem c2_record_invariant (a : RealEstateDealAnalyser) :
    a.getAnnualExpenses = a.getMonthlyMortgagePayment * 12 + a.monthlyHoaDues * 12 +
        a.annualCapEx + a.annualPropertyTax + annualPropertyInsurance +
        a.annualVacancyCosts ∧
      a.getAnnualCashflow = a.monthlyRent * 12 - a.getAnnualExpenses ∧
      a.getAnnualReturn = a.getAnnualCashflow + a.getAnnualPrincipalReduction +
        a.purchasePrice * 0.048 ∧
      a.getAnnualROI = a.getAnnualReturn / (a.getDownPayment + a.purchasePrice * 0.02) * 100 ∧
      a.getDownPayment = a.purchasePrice * (a.downpaymentPercentage / 100) := by
  refine ⟨?_, rfl, rfl, rfl, rfl⟩
  simp only [getAnnualExpenses, List.foldl, annualMortgagePayment, annualHoaDues]
  ring

/-- C5: the `annualPrincipalReduction` computed by `getAnnualReturn`'s loop
equals the spec's simulation of exactly 12 consecutive monthly amortization
steps starting from the loan amount, with the same monthly payment and
monthly rate as the payment computation. -/
theorem c5_principal_reduction_spec (a : RealEstateDealAnalyser) :
    a.getAnnualPrincipalReduction =
      specAnnualPrincipalReduction a.getLoanAmount a.getMonthlyMortgagePayment
        a.monthlyMortgageInterestRate :=
  amortLoop_eq_iterate a 12 a.getLoanAmount 0

/-- C3: with all other fields fixed, a valid deal (downpayment ≤ 100%, a
positive interest rate, a positive amortization length), the annual cashflow
is strictly decreasing in the candidate purchase price. -/
theorem c3_cashflow_strict_anti (a : RealEstateDealAnalyser)
    (hdp : a.downpaymentPercentage ≤ 100)
    (hr : 0 < a.annualMortgageInterestRate) (hn : a.mortgageAmortization ≠ 0)
    (p q : ℚ) (hpq : p < q) :
    getAnnualCashflow (a.setPrice q) < getAnnualCashflow (a.setPrice p) := by
  have hD := paymentDenominator_pos a hr hn
  have hkey := getAnnualCashflow_setPrice_diff a p q
  have hr' : 0 ≤ a.monthlyMortgageInterestRate := by
    rw [monthlyMortgageInterestRate]
    positivity
  have hc : 0 ≤ (1 - a.downpaymentPercentage / 100) *
      a.monthlyMortgageInterestRate / a.paymentDenominator :=
    div_nonneg (mul_nonneg (by linarith) hr') hD.le
  have hfac := mul_pos (show (0 : ℚ) < q - p by linarith)
    (show (0 : ℚ) < 12 * ((1 - a.downpaymentPercentage / 100) *
      a.monthlyMortgageInterestRate / a.paymentDenominator) + 1 / 40 by linarith)
  linarith

/-- C3 witness: the strict decrease, instantiated at the profitable concrete
input and the prices 100 < 200. -/
theorem c3_cashflow_strict_anti_witness :
    (mkAnalyser inputGood).downpaymentPercentage ≤ 100 ∧
      0 < (mkAnalyser inputGood).annualMortgageInterestRate ∧
      (mkAnalyser inputGood).mortgageAmortization ≠ 0 ∧
      getAnnualCashflow ((mkAnalyser inputGood).setPrice 200) <
        getAnnualCashflow ((mkAnalyser inputGood).setPrice 100) :=
  ⟨by norm_num [mkAnalyser, inputGood], by norm_num [mkAnalyser, inputGood],
    by norm_num [mkAnalyser, inputGood],
    c3_cashflow_strict_anti (mkAnalyser inputGood)
      (by norm_num [mkAnalyser, inputGood]) (by norm_num [mkAnalyser, inputGood])
      (by norm_num [mkAnalyser, inputGood]) 100 200 (by norm_num)⟩

/-- C4 counterexample: at the worked scenario with a 19% downpayment, the
computed monthly payment is NOT the amortization formula plus the claimed PMI
surcharge `(purchasePrice × 0.015)/12` — the code adds no surcharge. -/
theorem c4_counterexample :
    getMonthlyMortgagePayment (mkAnalyser inputExample19) ≠
      getLoanAmount (mkAnalyser inputExample19) *
          monthlyMortgageInterestRate (mkAnalyser inputExample19) /
          paymentDenominator (mkAnalyser inputExample19) +
        (mkAnalyser inputExample19).purchasePrice * 0.015 / 12 := by
  rw [getMonthlyMortgagePayment, Ne, self_eq_add_right]
  norm_num [mkAnalyser, inputExample19, inputExample]

/-- C4 amended: the monthly payment is the bare amortization formula at every
downpayment percentage, so the evaluations at 19% versus 20% downpayment
differ in the monthly payment exactly by the amortized payment on the extra
1% of the purchase price financed — not by a PMI term. -/
theorem c4_payment_no_pmi (i : RealestateAnalysisInput) :
    getMonthlyMortgagePayment (mkAnalyser { i with downpaymentPercentage := 19 }) =
      getMonthlyMortgagePayment (mkAnalyser { i with downpaymentPercentage := 20 }) +
        i.salePrice * 0.01 * monthlyMortgageInterestRate (mkAnalyser i) /
          paymentDenominator (mkAnalyser i) := by
  simp only [getMonthlyMortgagePayment, getLoanAmount, monthlyMortgageInterestRate,
    paymentDenominator, nPeriods, mkAnalyser]
  ring

/-- C6: on the worked scenario with `annualMortgageInterestRate = 0`, the
amortization-formula denominator is 0 — in JavaScript the payment is
`0 / 0 = NaN` — and the value the spec requires, `loanAmount / n = 1000`,
is not what the code computes (the `ℚ` embedding yields `0 / 0 = 0`). -/
theorem c6_zero_rate_denominator :
    paymentDenominator (mkAnalyser inputZeroRate) = 0 ∧
      getMonthlyMortgagePayment (mkAnalyser inputZeroRate) = 0 ∧
      getLoanAmount (mkAnalyser inputZeroRate) /
        ((nPeriods (mkAnalyser inputZeroRate) : ℕ) : ℚ) = 1000 := by
  refine ⟨?_, ?_, ?_⟩ <;>
    norm_num [paymentDenominator, getMonthlyMortgagePayment, getLoanAmount, nPeriods,
      monthlyMortgageInterestRate, mkAnalyser, inputZeroRate, inputExample]

/-- C7: the constructor accepts the invalid input (negative sale price and
rent, 120% downpayment, negative dues) without any failure: it produces an
object whose metrics the getters then happily compute — here a positive
"loan" of 20000 out of a negative price, and a garbage negative cashflow. -/
theorem c7_no_validation :
    (mkAnalyser inputInvalid).purchasePrice = -100000 ∧
      getLoanAmount (mkAnalyser inputInvalid) = 20000 ∧
      getAnnualCashflow (mkAnalyser inputInvalid) < 0 := by
  refine ⟨rfl, by norm_num [getLoanAmount, mkAnalyser, inputInvalid], ?_⟩
  norm_num [getAnnualCashflow, getAnnualExpenses, annualMortgagePayment,
    getMonthlyMortgagePayment, getLoanAmount, paymentDenominator,
    monthlyMortgageInterestRate, nPeriods, annualHoaDues, annualCapEx,
    annualPropertyTax, annualPropertyInsurance, annualVacancyCosts,
    mkAnalyser, inputInvalid]

/-- C8 counterexample: at the worked scenario, the monthly mortgage payment
is NOT within 1 of 1792 (it is about 1780.09). -/
theorem c8_counterexample :
    ¬ |getMonthlyMortgagePayment (mkAnalyser inputExample) - 1792| ≤ 1 := by
  rw [not_le, lt_abs]
  right
  norm_num [getMonthlyMortgagePayment, getLoanAmount, paymentDenominator,
    monthlyMortgageInterestRate, nPeriods, mkAnalyser, inputExample]

/-- C8 amended: the worked scenario yields loanAmount 300000, a monthly
payment within 1 of 1780, annualCapEx 3750, annualPropertyTax 5625,
annualPropertyInsurance 1750, annualVacancyCosts 2212.5, total annual
expenses within 5 of 34699, annual rent 35400, and annual cashflow within 5
of 701. -/
theorem c8_concrete_values :
    getLoanAmount (mkAnalyser inputExample) = 300000 ∧
      |getMonthlyMortgagePayment (mkAnalyser inputExample) - 1780| ≤ 1 ∧
      annualCapEx (mkAnalyser inputExample) = 3750 ∧
      annualPropertyTax (mkAnalyser inputExample) = 5625 ∧
      annualPropertyInsurance = 1750 ∧
      annualVacancyCosts (mkAnalyser inputExample) = 2212.5 ∧
      |getAnnualExpenses (mkAnalyser inputExample) - 34699| ≤ 5 ∧
      (mkAnalyser inputExample).monthlyRent * 12 = 35400 ∧
      |getAnnualCashflow (mkAnalyser inputExample) - 701| ≤ 5 := by
  refine ⟨by norm_num [getLoanAmount, mkAnalyser, inputExample], ?_,
    by norm_num [annualCapEx, mkAnalyser, inputExample],
    by norm_num [annualPropertyTax, mkAnalyser, inputExample],
    rfl,
    by norm_num [annualVacancyCosts, mkAnalyser, inputExample], ?_,
    by norm_num [mkAnalyser, inputExample], ?_⟩ <;>
  · rw [abs_le]
    constructor <;>
      norm_num [getAnnualCashflow, getAnnualExpenses, annualMortgagePayment,
        getMonthlyMortgagePayment, getLoanAmount, paymentDenominator,
        monthlyMortgageInterestRate, nPeriods, annualHoaDues, annualCapEx,
        annualPropertyTax, annualPropertyInsurance, annualVacancyCosts,
        mkAnalyser, inputExample]

/-- C9: whenever the price search returns normally from an analyser whose
`purchasePrice` still equals `salePrice`, the result is the state at
`salePrice - 1000·k` for the smallest `k ≥ 0` whose grid point meets both
criteria — a $1000 grid anchored at the sale price. -/
theorem c9_grid_minimal (m c : ℚ) (a res : RealEstateDealAnalyser)
    (hstart : a.purchasePrice = a.salePrice)
    (h : adjustToNeededPurchasePrice m c a = .ok res) :
    ∃ k : ℕ, res = a.setPrice (a.salePrice - 1000 * k) ∧
      meetsCriteria m c res ∧
      ∀ j < k, ¬ meetsCriteria m c (a.setPrice (a.salePrice - 1000 * j)) := by
  have hx := adjust_ok_spec m c a res h
  rwa [hstart] at hx

/-- C9 witness: the search on the second profitable input returns at the sale
price itself (`k = 0`). -/
theorem c9_grid_minimal_witness :
    (mkAnalyser inputGood2).purchasePrice = (mkAnalyser inputGood2).salePrice ∧
      ∃ k : ℕ, mkAnalyser inputGood2 =
          (mkAnalyser inputGood2).setPrice ((mkAnalyser inputGood2).salePrice - 1000 * k) ∧
        meetsCriteria 13 0 (mkAnalyser inputGood2) ∧
        ∀ j < k, ¬ meetsCriteria 13 0
          ((mkAnalyser inputGood2).setPrice ((mkAnalyser inputGood2).salePrice - 1000 * j)) :=
  ⟨rfl, c9_grid_minimal 13 0 (mkAnalyser inputGood2) (mkAnalyser inputGood2) rfl
    (adjust_eq_ok_of_meets 13 0 (mkAnalyser inputGood2) (by
      norm_num [meetsCriteria, getAnnualROI, getAnnualReturn, getAnnualCashflow,
        getAnnualExpenses, getAnnualPrincipalReduction, amortLoop,
        getMonthlyMortgagePayment, getLoanAmount, getDownPayment, paymentDenominator,
        monthlyMortgageInterestRate, nPeriods, annualMortgagePayment, annualHoaDues,
        annualCapEx, annualPropertyTax, annualPropertyInsurance, annualVacancyCosts,
        mkAnalyser, inputGood2,
        show (12:ℕ)=11+1 from rfl, show (11:ℕ)=10+1 from rfl, show (10:ℕ)=9+1 from rfl,
        show (9:ℕ)=8+1 from rfl, show (8:ℕ)=7+1 from rfl, show (7:ℕ)=6+1 from rfl,
        show (6:ℕ)=5+1 from rfl, show (5:ℕ)=4+1 from rfl, show (4:ℕ)=3+1 from rfl,
        show (3:ℕ)=2+1 from rfl, show (2:ℕ)=1+1 from rfl, show (1:ℕ)=0+1 from rfl]))⟩

/-- C10: starting from `purchasePrice = salePrice > 0`, the price search
throws exactly when the sale price itself and every positive grid point
`salePrice - 1000·k` fail the criteria; and whenever it throws, the analyser
it leaves behind is the entry object with its `purchasePrice` already mutated
to a non-positive value — the state is not restored on error. -/
theorem c10_error_characterization (m c : ℚ) (a : RealEstateDealAnalyser)
    (hstart : a.purchasePrice = a.salePrice) (hpos : 0 < a.salePrice) :
    ((∃ e, adjustToNeededPurchasePrice m c a = .err e) ↔
        ∀ k : ℕ, 0 < a.salePrice - 1000 * k →
          ¬ meetsCriteria m c (a.setPrice (a.salePrice - 1000 * k))) ∧
      ∀ e, adjustToNeededPurchasePrice m c a = .err e →
        e.purchasePrice ≤ 0 ∧ e = a.setPrice e.purchasePrice := by
  constructor
  · have hx := adjust_err_iff m c a (by rw [hstart]; exact hpos)
    rwa [hstart] at hx
  · intro e he
    exact adjust_err_price m c a (by rw [hstart]; exact hpos) e he

/-- C10 witness: the characterization instantiated at the hopeless input. -/
theorem c10_error_characterization_witness :
    (0 : ℚ) < (mkAnalyser inputBad).salePrice ∧
      (((∃ e, adjustToNeededPurchasePrice 13 0 (mkAnalyser inputBad) = .err e) ↔
          ∀ k : ℕ, 0 < (mkAnalyser inputBad).salePrice - 1000 * k →
            ¬ meetsCriteria 13 0 ((mkAnalyser inputBad).setPrice
              ((mkAnalyser inputBad).salePrice - 1000 * k))) ∧
        ∀ e, adjustToNeededPurchasePrice 13 0 (mkAnalyser inputBad) = .err e →
          e.purchasePrice ≤ 0 ∧ e = (mkAnalyser inputBad).setPrice e.purchasePrice) :=
  ⟨by norm_num [mkAnalyser, inputBad],
    c10_error_characterization 13 0 (mkAnalyser inputBad) rfl
      (by norm_num [mkAnalyser, inputBad])⟩

/-- C1 counterexample: on the profitable input the search returns the sale
price 10000, yet the criteria still hold one currency unit higher, at 10001 —
so the returned price is not the greatest integer price satisfying the
predicate. -/
theorem c1_counterexample :
    adjustToNeededPurchasePrice 13 0 (mkAnalyser inputGood) = .ok (mkAnalyser inputGood) ∧
      meetsCriteria 13 0 ((mkAnalyser inputGood).setPrice
        ((mkAnalyser inputGood).purchasePrice + 1)) :=
  ⟨adjust_eq_ok_of_meets 13 0 (mkAnalyser inputGood) (by
      norm_num [meetsCriteria, getAnnualROI, getAnnualReturn, getAnnualCashflow,
        getAnnualExpenses, getAnnualPrincipalReduction, amortLoop,
        getMonthlyMortgagePayment, getLoanAmount, getDownPayment, paymentDenominator,
        monthlyMortgageInterestRate, nPeriods, annualMortgagePayment, annualHoaDues,
        annualCapEx, annualPropertyTax, annualPropertyInsurance, annualVacancyCosts,
        mkAnalyser, inputGood,
        show (12:ℕ)=11+1 from rfl, show (11:ℕ)=10+1 from rfl, show (10:ℕ)=9+1 from rfl,
        show (9:ℕ)=8+1 from rfl, show (8:ℕ)=7+1 from rfl, show (7:ℕ)=6+1 from rfl,
        show (6:ℕ)=5+1 from rfl, show (5:ℕ)=4+1 from rfl, show (4:ℕ)=3+1 from rfl,
        show (3:ℕ)=2+1 from rfl, show (2:ℕ)=1+1 from rfl, show (1:ℕ)=0+1 from rfl]),
    by
      norm_num [meetsCriteria, getAnnualROI, getAnnualReturn, getAnnualCashflow,
        getAnnualExpenses, getAnnualPrincipalReduction, amortLoop,
        getMonthlyMortgagePayment, getLoanAmount, getDownPayment, paymentDenominator,
        monthlyMortgageInterestRate, nPeriods, annualMortgagePayment, annualHoaDues,
        annualCapEx, annualPropertyTax, annualPropertyInsurance, annualVacancyCosts,
        setPrice, mkAnalyser, inputGood,
        show (12:ℕ)=11+1 from rfl, show (11:ℕ)=10+1 from rfl, show (10:ℕ)=9+1 from rfl,
        show (9:ℕ)=8+1 from rfl, show (8:ℕ)=7+1 from rfl, show (7:ℕ)=6+1 from rfl,
        show (6:ℕ)=5+1 from rfl, show (5:ℕ)=4+1 from rfl, show (4:ℕ)=3+1 from rfl,
        show (3:ℕ)=2+1 from rfl, show (2:ℕ)=1+1 from rfl, show (1:ℕ)=0+1 from rfl]⟩

/-- C1 amended: a normal return of the price search meets both criteria and
is maximal only on the $1000 grid anchored at the sale price: it is either
the sale price itself, or a point whose 1000-unit-higher neighbor fails the
criteria.  Maximality at 1-unit granularity does not hold (see the
counterexample). -/
theorem c1_grid_boundary (m c : ℚ) (a res : RealEstateDealAnalyser)
    (hstart : a.purchasePrice = a.salePrice)
    (h : adjustToNeededPurchasePrice m c a = .ok res) :
    meetsCriteria m c res ∧
      (res.purchasePrice = a.salePrice ∨
        ¬ meetsCriteria m c (res.setPrice (res.purchasePrice + 1000))) := by
  obtain ⟨k, hres, hmeets, hmin⟩ := adjust_ok_spec m c a res h
  refine ⟨hmeets, ?_⟩
  match k with
  | 0 =>
    left
    rw [hres]
    simp [hstart]
  | k + 1 =>
    right
    have hx := hmin k (by omega)
    rw [hres]
    simp only [setPrice_setPrice, setPrice_purchasePrice]
    have harith : a.purchasePrice - 1000 * ((k + 1 : ℕ) : ℚ) + 1000 =
        a.purchasePrice - 1000 * (k : ℚ) := by
      push_cast
      ring
    rw [harith]
    exact hx

/-- C1 amended witness: instantiated at the profitable input, where the
search returns the sale price itself. -/
theorem c1_grid_boundary_witness :
    meetsCriteria 13 0 (mkAnalyser inputGood) ∧
      ((mkAnalyser inputGood).purchasePrice = (mkAnalyser inputGood).salePrice ∨
        ¬ meetsCriteria 13 0 ((mkAnalyser inputGood).setPrice
          ((mkAnalyser inputGood).purchasePrice + 1000))) :=
  c1_grid_boundary 13 0 (mkAnalyser inputGood) (mkAnalyser inputGood) rfl
    (adjust_eq_ok_of_meets 13 0 (mkAnalyser inputGood) (by
      norm_num [meetsCriteria, getAnnualROI, getAnnualReturn, getAnnualCashflow,
        getAnnualExpenses, getAnnualPrincipalReduction, amortLoop,
        getMonthlyMortgagePayment, getLoanAmount, getDownPayment, paymentDenominator,
        monthlyMortgageInterestRate, nPeriods, annualMortgagePayment, annualHoaDues,
        annualCapEx, annualPropertyTax, annualPropertyInsurance, annualVacancyCosts,
        mkAnalyser, inputGood,
        show (12:ℕ)=11+1 from rfl, show (11:ℕ)=10+1 from rfl, show (10:ℕ)=9+1 from rfl,
        show (9:ℕ)=8+1 from rfl, show (8:ℕ)=7+1 from rfl, show (7:ℕ)=6+1 from rfl,
        show (6:ℕ)=5+1 from rfl, show (5:ℕ)=4+1 from rfl, show (4:ℕ)=3+1 from rfl,
        show (3:ℕ)=2+1 from rfl, show (2:ℕ)=1+1 from rfl, show (1:ℕ)=0+1 from rfl]))
